import Mathlib

/-!
Verification of the financial scenario engine of a solar-investment
calculator.  The Python source projects twenty years of cash flow under an
average and a worst-case scenario, discounts them (NPV), finds the internal
rate of return with Newton-Raphson, and derives a payback year.

The embedding models Python floats by exact rationals (ℚ).  Python
exceptions that the source catches (notably ZeroDivisionError from
`cf / (1+rate)**i` when `rate = -1`) are modelled explicitly with `Option`:
`none` marks a raised-and-caught exception.  With a rational base and
natural exponents, `(1+rate)**i` itself never produces a domain error, so
division by zero is the only exception source in the translated code.
-/

/-- Python division `a / b`: raises ZeroDivisionError when `b = 0`,
modelled as `none`. -/
def pyDiv (a b : ℚ) : Option ℚ :=
  if b = 0 then none else some (a / b)

/-- The comprehension `sum([cf / ((1+rate)**i) for i, cf in enumerate(cashflows)])`
with the enumeration index starting at `k`; `none` when any term raises. -/
def npvTryFrom (rate : ℚ) : ℕ → List ℚ → Option ℚ
  | _, [] => some 0
  | k, c :: t =>
    match pyDiv c ((1 + rate) ^ k) with
    | none => none
    | some x => (npvTryFrom rate (k + 1) t).map (fun s => x + s)

/-- The `npv` expression of `calculate_irr` (and of the engine's
`npv_avg` / `npv_worst` comprehensions), as run by Python. -/
def npvTry (cashflows : List ℚ) (rate : ℚ) : Option ℚ :=
  npvTryFrom rate 0 cashflows

/-- The comprehension
`sum([-i * cf / ((1+rate)**(i+1)) for i, cf in enumerate(cashflows)])`
with the enumeration index starting at `k`. -/
def derivTryFrom (rate : ℚ) : ℕ → List ℚ → Option ℚ
  | _, [] => some 0
  | k, c :: t =>
    match pyDiv (-(k : ℚ) * c) ((1 + rate) ^ (k + 1)) with
    | none => none
    | some x => (derivTryFrom rate (k + 1) t).map (fun s => x + s)

/-- The `derivative` expression of `calculate_irr`, as run by Python. -/
def derivTry (cashflows : List ℚ) (rate : ℚ) : Option ℚ :=
  derivTryFrom rate 0 cashflows

/-- Exception-free value of the NPV sum (the value Python computes whenever
no ZeroDivisionError occurs), with the enumeration index starting at `k`. -/
def npvFrom (rate : ℚ) : ℕ → List ℚ → ℚ
  | _, [] => 0
  | k, c :: t => c / (1 + rate) ^ k + npvFrom rate (k + 1) t

/-- Net present value `Σ cf_i / (1+rate)^i` of a cash-flow series. -/
def npvQ (cashflows : List ℚ) (rate : ℚ) : ℚ :=
  npvFrom rate 0 cashflows

/-- The body of `calculate_irr`: up to `fuel` Newton-Raphson iterations from
the current `rate`; the `try`/`except` of the source maps any exception to
`None`, and exhausting the loop also returns `None`. -/
def irrGo (cashflows : List ℚ) : ℕ → ℚ → Option ℚ
  | 0, _ => none
  | n + 1, rate =>
    match npvTry cashflows rate, derivTry cashflows rate with
    | some npvv, some derivative =>
      if |derivative| < 1 / 10 ^ 10 then none
      else
        let new_rate := rate - npvv / derivative
        if |new_rate - rate| < 1 / 10 ^ 7 then some new_rate
        else irrGo cashflows n new_rate
    | _, _ => none

/-- `calculate_irr(cashflows, guess)` from the source (the source's default
guess is `0.1`; callers here always pass it explicitly). -/
def calculate_irr (cashflows : List ℚ) (guess : ℚ) : Option ℚ :=
  irrGo cashflows 100 guess

/-- The running-sum loop `cum += cf; res.append(cum)` starting from
accumulator `acc`: cumulative balances of a list of flows. -/
def cumFrom (acc : ℚ) : List ℚ → List ℚ
  | [] => []
  | c :: t => (acc + c) :: cumFrom (acc + c) t

/-- `next((i for i, x in enumerate(l) if p x), None)` with the enumeration
counter starting at `i`. -/
def nextIdx (p : ℚ → Bool) : ℕ → List ℚ → Option ℕ
  | _, [] => none
  | i, x :: t => if p x then some i else nextIdx p (i + 1) t

/-- `payback = next((i for i, x in enumerate(res) if x >= 0), ">20")`:
`none` models the `">20"` (beyond-horizon) sentinel. -/
def payback (res : List ℚ) : Option ℕ :=
  nextIdx (fun x => 0 ≤ x) 0 res

/-- The investment parameters reaching the calculation block, after the UI
has converted percentages into fractions (`self_use`, `opex_pct`, ... are
already divided by 100 at input time). -/
structure Params where
  kwp : ℚ
  capex : ℚ
  opex_fix : ℚ
  self_use : ℚ
  p_industry : ℚ
  p_market : ℚ
  wacc : ℚ
  degr_avg : ℚ
  degr_worst : ℚ
  infl_avg : ℚ
  merit_drop : ℚ
  inv_cost : ℚ
  inv_year : ℕ

/-- `prod_a = start_yield * ((1 - degr_avg)**(y-1))`. -/
def prod_a (p : Params) (start_yield : ℚ) (y : ℕ) : ℚ :=
  start_yield * (1 - p.degr_avg) ^ (y - 1)

/-- `p_ind_a = p_industry * ((1 + infl_avg)**(y-1))`. -/
def p_ind_a (p : Params) (y : ℕ) : ℚ :=
  p.p_industry * (1 + p.infl_avg) ^ (y - 1)

/-- `p_mark_a = p_market * ((1 + infl_avg)**(y-1))`. -/
def p_mark_a (p : Params) (y : ℕ) : ℚ :=
  p.p_market * (1 + p.infl_avg) ^ (y - 1)

/-- `rev_a = (prod_a * self_use * p_ind_a) + (prod_a * (1-self_use) * p_mark_a)`. -/
def rev_a (p : Params) (start_yield : ℚ) (y : ℕ) : ℚ :=
  prod_a p start_yield y * p.self_use * p_ind_a p y
    + prod_a p start_yield y * (1 - p.self_use) * p_mark_a p y

/-- `cost_a = opex_fix * ((1 + infl_avg)**(y-1))`. -/
def cost_a (p : Params) (y : ℕ) : ℚ :=
  p.opex_fix * (1 + p.infl_avg) ^ (y - 1)

/-- `cf_a = rev_a - cost_a`. -/
def cf_a (p : Params) (start_yield : ℚ) (y : ℕ) : ℚ :=
  rev_a p start_yield y - cost_a p y

/-- `prod_w = start_yield * ((1 - degr_worst)**(y-1))`. -/
def prod_w (p : Params) (start_yield : ℚ) (y : ℕ) : ℚ :=
  start_yield * (1 - p.degr_worst) ^ (y - 1)

/-- `p_mark_w = p_market * ((1 - merit_drop)**(y-1))`. -/
def p_mark_w (p : Params) (y : ℕ) : ℚ :=
  p.p_market * (1 - p.merit_drop) ^ (y - 1)

/-- `rev_w = (prod_w * self_use * p_industry) + (prod_w * (1-self_use) * p_mark_w)`:
the avoided-cost price enters unescalated here. -/
def rev_w (p : Params) (start_yield : ℚ) (y : ℕ) : ℚ :=
  prod_w p start_yield y * p.self_use * p.p_industry
    + prod_w p start_yield y * (1 - p.self_use) * p_mark_w p y

/-- `cost_w = opex_fix * ((1 + infl_avg)**(y-1))`. -/
def cost_w (p : Params) (y : ℕ) : ℚ :=
  p.opex_fix * (1 + p.infl_avg) ^ (y - 1)

/-- `invest_fix = inv_cost if y == inv_year else 0`. -/
def invest_fix (p : Params) (y : ℕ) : ℚ :=
  if y = p.inv_year then p.inv_cost else 0

/-- `cf_w = rev_w - cost_w - invest_fix`. -/
def cf_w (p : Params) (start_yield : ℚ) (y : ℕ) : ℚ :=
  rev_w p start_yield y - cost_w p y - invest_fix p y

/-- The year-1..20 net flows appended to `flows_avg` by the loop
`for y in range(1, 21)`. -/
def yearFlowsAvg (p : Params) (start_yield : ℚ) : List ℚ :=
  (List.range 20).map (fun k => cf_a p start_yield (k + 1))

/-- The year-1..20 net flows appended to `flows_worst` by the loop. -/
def yearFlowsWorst (p : Params) (start_yield : ℚ) : List ℚ :=
  (List.range 20).map (fun k => cf_w p start_yield (k + 1))

/-- `flows_avg = [-capex]` followed by the twenty appended yearly flows. -/
def flowsAvg (p : Params) (start_yield : ℚ) : List ℚ :=
  (-p.capex) :: yearFlowsAvg p start_yield

/-- `flows_worst = [-capex]` followed by the twenty appended yearly flows. -/
def flowsWorst (p : Params) (start_yield : ℚ) : List ℚ :=
  (-p.capex) :: yearFlowsWorst p start_yield

/-- `res_avg`: cumulative balances appended by the loop, accumulator
initialised to `-capex`. -/
def resAvg (p : Params) (start_yield : ℚ) : List ℚ :=
  cumFrom (-p.capex) (yearFlowsAvg p start_yield)

/-- `res_worst`: cumulative balances for the worst case. -/
def resWorst (p : Params) (start_yield : ℚ) : List ℚ :=
  cumFrom (-p.capex) (yearFlowsWorst p start_yield)

/-- The `try`/`except` around the two NPV comprehensions: if either raises
(only possible through division by zero), both NPVs are set to `0`. -/
def npvPair (flows_avg flows_worst : List ℚ) (rate : ℚ) : ℚ × ℚ :=
  match npvTry flows_avg rate, npvTry flows_worst rate with
  | some x, some y => (x, y)
  | _, _ => (0, 0)

/-- Everything the calculation block derives for the two scenarios. -/
structure EngineOut where
  flows_avg : List ℚ
  flows_worst : List ℚ
  res_avg : List ℚ
  res_worst : List ℚ
  npv_avg : ℚ
  npv_worst : ℚ
  irr_avg : Option ℚ
  payback_avg : Option ℕ
  payback_worst : Option ℕ

/-- The body of the calculation block, given a resolved first-year yield. -/
def runCase (p : Params) (start_yield : ℚ) : EngineOut :=
  ⟨flowsAvg p start_yield, flowsWorst p start_yield,
   resAvg p start_yield, resWorst p start_yield,
   (npvPair (flowsAvg p start_yield) (flowsWorst p start_yield) p.wacc).1,
   (npvPair (flowsAvg p start_yield) (flowsWorst p start_yield) p.wacc).2,
   calculate_irr (flowsAvg p start_yield) (1 / 10),
   payback (resAvg p start_yield), payback (resWorst p start_yield)⟩

/-- `start_yield = get_pvgis_data(...) if kwp > 0 else 0`, where `pvgis`
is the outcome of the external irradiance lookup (`none` = request or
parse failure caught inside `get_pvgis_data`). -/
def startYield (p : Params) (pvgis : Option ℚ) : Option ℚ :=
  if 0 < p.kwp then pvgis else some 0

/-- `if start_yield is not None: <calculation block>` — when the yield
lookup failed, the whole block is skipped and nothing is produced. -/
def engine (p : Params) (pvgis : Option ℚ) : Option EngineOut :=
  match startYield p pvgis with
  | some sy => some (runCase p sy)
  | none => none

/-- The hard-coded fallback `lat, lon = 53.55, 9.99`. -/
def defaultCoords : ℚ × ℚ := (1071 / 20, 999 / 100)

/-- Lines 98-101 of the source: start from the defaults, call the resolver
only for a non-empty address, and keep the resolved pair only when its
latitude is truthy (`if f_lat:`), i.e. present and non-zero. -/
def coordsWithFallback (addr : String) (geo : Option (ℚ × ℚ)) : ℚ × ℚ :=
  if addr.isEmpty then defaultCoords
  else
    match geo with
    | some (la, lo) => if la = 0 then defaultCoords else (la, lo)
    | none => defaultCoords

/-- What the IRR metric renders as. -/
inductive IrrDisplay where
  | numeric (x : ℚ)
  | na
deriving DecidableEq

/-- `irr_display = f"{format_de(irr_avg*100,2)}%" if irr_avg else "n/a"`:
Python truthiness makes both `None` and `0.0` take the `"n/a"` branch; the
numeric branch shows `irr_avg * 100` (percent). -/
def irr_display (irr_avg : Option ℚ) : IrrDisplay :=
  match irr_avg with
  | some r => if r = 0 then IrrDisplay.na else IrrDisplay.numeric (r * 100)
  | none => IrrDisplay.na

/-- Value of a list of decimal digit characters. -/
def digitsVal (l : List Char) : ℕ :=
  l.foldl (fun a c => 10 * a + (c.toNat - 48)) 0

/-- A non-empty all-digit sequence, else `none`. -/
def parseDigits (l : List Char) : Option ℕ :=
  if l ≠ [] ∧ l.all Char.isDigit then some (digitsVal l) else none

/-- Modelled from the spec and Python's `float` builtin (the source calls
the builtin, which is not part of the repository): an unsigned decimal
mantissa, `digits`, `digits.`, `.digits` or `digits.digits` ("inf"/"nan"
and underscore separators are outside the modelled subset). -/
def parseMantissa (l : List Char) : Option ℚ :=
  match l.splitOn '.' with
  | [i] => (parseDigits i).map (fun n => (n : ℚ))
  | [i, f] =>
    if (i ≠ [] ∨ f ≠ []) ∧ i.all Char.isDigit ∧ f.all Char.isDigit then
      some ((digitsVal i : ℚ) + (digitsVal f : ℚ) / 10 ^ f.length)
    else none
  | _ => none

/-- Optional sign in front of a mantissa. -/
def parseSignedMantissa : List Char → Option ℚ
  | '+' :: t => parseMantissa t
  | '-' :: t => (parseMantissa t).map Neg.neg
  | l => parseMantissa l

/-- Optionally signed integer exponent. -/
def parseExpInt : List Char → Option ℤ
  | '+' :: t => (parseDigits t).map (fun n => (n : ℤ))
  | '-' :: t => (parseDigits t).map (fun n => -(n : ℤ))
  | l => (parseDigits l).map (fun n => (n : ℤ))

/-- Modelled from the spec: Python's `float(str)` conversion on the decimal
literal subset — surrounding whitespace stripped, case-insensitive
exponent marker, `ValueError` modelled as `none`. -/
def floatOfString (s : String) : Option ℚ :=
  match (s.trim.toLower.toList).splitOn 'e' with
  | [m] => parseSignedMantissa m
  | [m, ex] =>
    match parseSignedMantissa m, parseExpInt ex with
    | some mv, some ev => some (mv * (10 : ℚ) ^ ev)
    | _, _ => none
  | _ => none

/-- A Python value as far as `parse_de_number`'s `isinstance` dispatch can
distinguish it (a `bool` is an `int` subclass in Python and is subsumed by
the `pyInt` case). -/
inductive PyVal where
  | pyInt (n : ℤ)
  | pyFloat (q : ℚ)
  | pyStr (s : String)
  | pyOther

/-- `parse_de_number` from the source: numbers pass through `float(value)`,
strings get `","` replaced by `"."` and are converted inside `try`/`except`
(failure → `None`), anything else returns `None`. -/
def parse_de_number : PyVal → Option ℚ
  | PyVal.pyInt n => some ((n : ℚ))
  | PyVal.pyFloat q => some q
  | PyVal.pyStr s => floatOfString (s.replace "," ".")
  | PyVal.pyOther => none

/-- A parameter set with positive capacity (1 kWp) and the UI defaults for
the remaining inputs, already converted to fractions. -/
def P1 : Params :=
  ⟨1, 100000, 1000, 2/5, 7/25, 2/25, 3/50, 1/200, 1/100, 1/50, 1/100, 2000, 10⟩

/-- A parameter set with zero capacity (the short-circuit case). -/
def P0 : Params :=
  ⟨0, 50000, 500, 1/2, 7/25, 2/25, 3/50, 1/200, 1/100, 1/50, 1/100, 2000, 10⟩

/-- A parameter set with 100% inflation and a 100 currency-unit OPEX, used
to separate the escalated OPEX from the base OPEX. -/
def Pinfl : Params :=
  ⟨10, 100000, 100, 2/5, 7/25, 2/25, 3/50, 1/200, 1/100, 1, 1/100, 2000, 10⟩

/-! ## Helper lemmas -/

/-- Shifting the enumeration counter of `nextIdx` by one shifts the found
index by one. -/
theorem nextIdx_shift (p : ℚ → Bool) (l : List ℚ) :
    ∀ i : ℕ, nextIdx p (i + 1) l = Option.map (fun j => j + 1) (nextIdx p i l) := by
  induction l with
  | nil => intro i; rfl
  | cons x t ih =>
    intro i
    by_cases hx : p x
    · simp [nextIdx, hx]
    · simp only [nextIdx, hx, Bool.false_eq_true, if_false]
      exact ih (i + 1)

/-! ## C1: payback-year lookup -/

/-- Claim C1 (counterexample): for the spec's cumulative balances
`[-100, -60, -10, 20, 50]` (index 0 = outlay), the code's payback lookup —
which runs over the per-year cumulative list that starts at year 1 and does
not contain the outlay entry — returns 2, not the claimed 3. -/
theorem payback_claim_counterexample :
    payback (cumFrom (-100) [40, 50, 30, 30]) = some 2 ∧
    payback (cumFrom 0 ((-100) :: [40, 50, 30, 30])) = some 3 ∧
    payback (cumFrom (-100) [40, 50, 30, 30]) ≠
      payback (cumFrom 0 ((-100) :: [40, 50, 30, 30])) := by
  refine ⟨?_, ?_, ?_⟩ <;> norm_num [payback, cumFrom, nextIdx]

/-- Claim C1 (amended): whenever CAPEX is positive, the first qualifying
index of the outlay-included cumulative sequence is exactly one more than
the code's payback value, which is computed over the per-year cumulative
list that omits the outlay entry; the beyond-horizon sentinel (`none`)
coincides on both sides. -/
theorem payback_offset (capex : ℚ) (yf : List ℚ) (h : 0 < capex) :
    payback (cumFrom 0 ((-capex) :: yf)) =
      Option.map (fun i => i + 1) (payback (cumFrom (-capex) yf)) := by
  have hne : ¬ ((0 : ℚ) ≤ -capex) := by
    rw [neg_nonneg]
    exact not_le.mpr h
  simp only [payback, cumFrom, zero_add, nextIdx]
  rw [if_neg (by simpa using hne)]
  exact nextIdx_shift _ _ 0

/-- Witness for `payback_offset` at CAPEX 100 and yearly flows
`[40, 50, 30, 30]`. -/
theorem payback_offset_witness :
    payback (cumFrom 0 ((-(100 : ℚ)) :: [40, 50, 30, 30])) =
      Option.map (fun i => i + 1) (payback (cumFrom (-(100 : ℚ)) [40, 50, 30, 30])) :=
  payback_offset 100 [40, 50, 30, 30] (by norm_num)

/-! ## C9: NPV monotone in the discount rate -/

/-- For non-negative flows the tail sum of the NPV is non-increasing in the
rate, uniformly in the starting exponent. -/
theorem npvFrom_mono (r1 r2 : ℚ) (h1 : 0 ≤ r1) (h12 : r1 ≤ r2) :
    ∀ l : List ℚ, (∀ c ∈ l, 0 ≤ c) → ∀ k : ℕ, npvFrom r2 k l ≤ npvFrom r1 k l := by
  intro l
  induction l with
  | nil => intro _ k; simp [npvFrom]
  | cons c t ih =>
    intro hall k
    have hc : 0 ≤ c := hall c (List.mem_cons_self c t)
    have ht : ∀ x ∈ t, 0 ≤ x := fun x hx => hall x (List.mem_cons_of_mem c hx)
    simp only [npvFrom]
    have hb1 : (0 : ℚ) < (1 + r1) ^ k := pow_pos (by linarith) k
    have hb2 : (1 + r1) ^ k ≤ (1 + r2) ^ k := pow_le_pow_left₀ (by linarith) (by linarith) k
    have hterm : c / (1 + r2) ^ k ≤ c / (1 + r1) ^ k :=
      div_le_div_of_nonneg_left hc hb1 hb2
    exact add_le_add hterm (ih ht (k + 1))

/-- Claim C9: for a series with a negative outlay at index 0 and
non-negative flows thereafter, the NPV is non-increasing in the discount
rate over rates ≥ 0. -/
theorem npv_monotone_nonincreasing (c0 : ℚ) (rest : List ℚ) (r1 r2 : ℚ)
    (hc0 : c0 < 0) (hrest : ∀ c ∈ rest, 0 ≤ c) (h1 : 0 ≤ r1) (h12 : r1 ≤ r2) :
    npvQ (c0 :: rest) r2 ≤ npvQ (c0 :: rest) r1 := by
  simp only [npvQ, npvFrom, pow_zero, div_one]
  have := npvFrom_mono r1 r2 h1 h12 rest hrest 1
  linarith

/-- Witness for `npv_monotone_nonincreasing` on `[-100, 50, 50]` between
rates 0 and 1. -/
theorem npv_monotone_nonincreasing_witness :
    npvQ [(-100 : ℚ), 50, 50] 1 ≤ npvQ [(-100 : ℚ), 50, 50] 0 :=
  npv_monotone_nonincreasing (-100) [50, 50] 0 1 (by norm_num)
    (by norm_num [List.forall_mem_cons]) (by norm_num) (by norm_num)

/-! ## IRR solver characterization (shared helper) -/

/-- If the Newton-Raphson loop returns a rate, the rate was produced by one
Newton step from a previous estimate, with a live derivative and with the
successive-estimate convergence criterion satisfied. -/
theorem irrGo_some (cf : List ℚ) :
    ∀ (n : ℕ) (rate r : ℚ), irrGo cf n rate = some r →
      ∃ prev npvv d, npvTry cf prev = some npvv ∧ derivTry cf prev = some d ∧
        ¬ |d| < 1 / 10 ^ 10 ∧ r = prev - npvv / d ∧ |r - prev| < 1 / 10 ^ 7 := by
  intro n
  induction n with
  | zero => intro rate r h; simp [irrGo] at h
  | succ m ih =>
    intro rate r h
    rw [irrGo] at h
    cases hn : npvTry cf rate with
    | none => rw [hn] at h; simp at h
    | some npvv =>
      cases hd : derivTry cf rate with
      | none => rw [hn, hd] at h; simp at h
      | some d =>
        rw [hn, hd] at h
        simp only at h
        by_cases h10 : |d| < 1 / 10 ^ 10
        · rw [if_pos h10] at h
          exact absurd h (by simp)
        · rw [if_neg h10] at h
          by_cases h7 : |rate - npvv / d - rate| < 1 / 10 ^ 7
          · rw [if_pos h7] at h
            have hr : r = rate - npvv / d := (Option.some_inj.mp h).symm
            exact ⟨rate, npvv, d, hn, hd, h10, hr, by rw [hr]; exact h7⟩
          · rw [if_neg h7] at h
            exact ih _ _ h

/-- Evaluation of the solver on the two-term series
`[20000 - 10^13/11, 10^12]` with the default guess `0.1`: the very first
Newton step is smaller than 1e-7, so its result is returned at once. -/
theorem irr_two_term_eval :
    calculate_irr [(20000 : ℚ) - 10 ^ 13 / 11, 10 ^ 12] (1 / 10) =
      some (1 / 10 + 242 / 10 ^ 10) := by
  have h1 : npvTry [(20000 : ℚ) - 10 ^ 13 / 11, 10 ^ 12] (1 / 10) = some 20000 := by
    norm_num [npvTry, npvTryFrom, pyDiv]
  have h2 : derivTry [(20000 : ℚ) - 10 ^ 13 / 11, 10 ^ 12] (1 / 10) =
      some (-(10 : ℚ) ^ 14 / 121) := by
    norm_num [derivTry, derivTryFrom, pyDiv]
  rw [calculate_irr, show (100 : ℕ) = 99 + 1 from rfl, irrGo, h1, h2]
  norm_num
  constructor
  · rw [abs_of_nonneg (by norm_num)]
    norm_num
  · intro hcontra
    rw [abs_of_nonneg (by norm_num)] at hcontra
    norm_num at hcontra

/-! ## C3: NPV round-trip at a returned IRR -/

/-- Claim C3 (counterexample): the solver returns a rate for the series
`[20000 - 10^13/11, 10^12]` (guess 0.1), yet the NPV of the series at the
returned rate is about 4.4e-4, outside the claimed 1e-4 band. -/
theorem irr_npv_roundtrip_counterexample :
    calculate_irr [(20000 : ℚ) - 10 ^ 13 / 11, 10 ^ 12] (1 / 10) =
      some (1 / 10 + 242 / 10 ^ 10) ∧
    1 / 10 ^ 4 < |npvQ [(20000 : ℚ) - 10 ^ 13 / 11, 10 ^ 12] (1 / 10 + 242 / 10 ^ 10)| := by
  refine ⟨irr_two_term_eval, ?_⟩
  have hval : npvQ [(20000 : ℚ) - 10 ^ 13 / 11, 10 ^ 12] (1 / 10 + 242 / 10 ^ 10) =
      220000 / 500000011 := by
    norm_num [npvQ, npvFrom]
  rw [hval, abs_of_nonneg (by norm_num)]
  norm_num

/-- Claim C3 (amended): what the convergence test actually guarantees for a
returned rate `r` is about the preceding estimate: `r` is one Newton step
from some `prev`, and the NPV at `prev` is smaller than 1e-7 times the
derivative magnitude there; no absolute 1e-4 bound on the NPV at `r`
holds. -/
theorem irr_converged_step_bound (cf : List ℚ) (guess r : ℚ)
    (h : calculate_irr cf guess = some r) :
    ∃ prev npvv d, npvTry cf prev = some npvv ∧ derivTry cf prev = some d ∧
      d ≠ 0 ∧ r = prev - npvv / d ∧ |npvv| < |d| / 10 ^ 7 := by
  obtain ⟨prev, npvv, d, hn, hd, h10, hr, h7⟩ := irrGo_some cf 100 guess r h
  have hd0 : d ≠ 0 := by
    intro h0
    apply h10
    rw [h0]
    norm_num
  refine ⟨prev, npvv, d, hn, hd, hd0, hr, ?_⟩
  have hsub : r - prev = -(npvv / d) := by rw [hr]; ring
  rw [hsub, abs_neg, abs_div] at h7
  have hdpos : 0 < |d| := abs_pos.mpr hd0
  rw [div_lt_iff₀ hdpos] at h7
  calc |npvv| < 1 / 10 ^ 7 * |d| := h7
  _ = |d| / 10 ^ 7 := by ring

/-- Witness for `irr_converged_step_bound` on the two-term series. -/
theorem irr_converged_step_bound_witness :
    ∃ prev npvv d, npvTry [(20000 : ℚ) - 10 ^ 13 / 11, 10 ^ 12] prev = some npvv ∧
      derivTry [(20000 : ℚ) - 10 ^ 13 / 11, 10 ^ 12] prev = some d ∧
      d ≠ 0 ∧ (1 / 10 + 242 / 10 ^ 10 : ℚ) = prev - npvv / d ∧ |npvv| < |d| / 10 ^ 7 :=
  irr_converged_step_bound _ (1 / 10) _ irr_two_term_eval

/-! ## C6: totality and failure modes of the IRR solver -/

/-- Claim C6: the solver is a total function; whenever it returns a rate,
the rate is a Newton iterate whose derivative check passed and whose step
from the previous estimate was below 1e-7 (the other exits - small
derivative, fuel exhaustion, caught division error - return `none`); and a
rate of -1, which makes the evaluation raise inside the loop, yields `none`
(the caught-exception path) for every non-empty series. -/
theorem calculate_irr_characterization :
    (∀ (cf : List ℚ) (guess r : ℚ), calculate_irr cf guess = some r →
      ∃ prev npvv d, npvTry cf prev = some npvv ∧ derivTry cf prev = some d ∧
        1 / 10 ^ 10 ≤ |d| ∧ r = prev - npvv / d ∧ |r - prev| < 1 / 10 ^ 7) ∧
    (∀ cf : List ℚ, cf ≠ [] → calculate_irr cf (-1) = none) := by
  constructor
  · intro cf guess r h
    obtain ⟨prev, npvv, d, hn, hd, h10, hr, h7⟩ := irrGo_some cf 100 guess r h
    exact ⟨prev, npvv, d, hn, hd, not_lt.mp h10, hr, h7⟩
  · intro cf hcf
    obtain ⟨c, t, rfl⟩ := List.exists_cons_of_ne_nil hcf
    rw [calculate_irr, show (100 : ℕ) = 99 + 1 from rfl, irrGo]
    cases t with
    | nil =>
      have hn : npvTry [c] (-1) = some c := by
        norm_num [npvTry, npvTryFrom, pyDiv]
      have hd : derivTry [c] (-1) = none := by
        norm_num [derivTry, derivTryFrom, pyDiv]
      rw [hn, hd]
    | cons c1 t1 =>
      have hn : npvTry (c :: c1 :: t1) (-1) = none := by
        norm_num [npvTry, npvTryFrom, pyDiv]
      rw [hn]

/-- Witness for `calculate_irr_characterization`: the converged two-term
series, and the caught division error on the double-sign-change series
`[-100, 50, -80, 200]` evaluated at rate -1. -/
theorem calculate_irr_characterization_witness :
    (∃ prev npvv d, npvTry [(20000 : ℚ) - 10 ^ 13 / 11, 10 ^ 12] prev = some npvv ∧
      derivTry [(20000 : ℚ) - 10 ^ 13 / 11, 10 ^ 12] prev = some d ∧
      1 / 10 ^ 10 ≤ |d| ∧ (1 / 10 + 242 / 10 ^ 10 : ℚ) = prev - npvv / d ∧
      |(1 / 10 + 242 / 10 ^ 10 : ℚ) - prev| < 1 / 10 ^ 7) ∧
    calculate_irr [(-100 : ℚ), 50, -80, 200] (-1) = none :=
  ⟨calculate_irr_characterization.1 _ (1 / 10) _ irr_two_term_eval,
   calculate_irr_characterization.2 _ (by simp)⟩

/-! ## C4: NPV versus the discount rate -/

/-- For rates other than -1 no term of the NPV comprehension divides by
zero, and the comprehension computes the exact NPV sum. -/
theorem npvTryFrom_eq_npvFrom (rate : ℚ) (hr : rate ≠ -1) :
    ∀ (k : ℕ) (l : List ℚ), npvTryFrom rate k l = some (npvFrom rate k l) := by
  have h0 : (1 : ℚ) + rate ≠ 0 := by
    intro h
    apply hr
    linarith
  intro k l
  induction l generalizing k with
  | nil => rfl
  | cons c t ih =>
    have hp : ((1 : ℚ) + rate) ^ k ≠ 0 := pow_ne_zero k h0
    simp [npvTryFrom, npvFrom, pyDiv, hp, ih (k + 1)]

/-- Claim C4 (amended): the paired NPV computation returns the exact NPV
sums for every rate other than -1 - rates below -1 included, they are not
rejected - while at rate -1 the ZeroDivisionError of the comprehension is
caught and both NPVs are silently set to the numeric pair (0, 0). -/
theorem npv_rate_behavior :
    (∀ (fa fw : List ℚ) (rate : ℚ), rate ≠ -1 →
      npvPair fa fw rate = (npvQ fa rate, npvQ fw rate)) ∧
    (∀ fa fw : List ℚ, 2 ≤ fa.length → npvPair fa fw (-1) = (0, 0)) := by
  constructor
  · intro fa fw rate hr
    rw [npvPair, npvTry, npvTry, npvTryFrom_eq_npvFrom rate hr 0 fa,
      npvTryFrom_eq_npvFrom rate hr 0 fw]
    rfl
  · intro fa fw hlen
    rcases fa with _ | ⟨a, _ | ⟨b, t⟩⟩
    · simp at hlen
    · simp at hlen
    · have hn : npvTry (a :: b :: t) (-1) = none := by
        norm_num [npvTry, npvTryFrom, pyDiv]
      rw [npvPair, hn]

/-- Claim C4 (counterexample): at the invalid rate -2 the engine silently
returns the numeric NPV pair (-150, -150) instead of rejecting the rate,
and at rate -1 the caught division error silently becomes the
valid-looking numeric pair (0, 0). -/
theorem npv_invalid_rate_counterexample :
    npvPair [(-100 : ℚ), 50] [(-100 : ℚ), 50] (-2) = (-150, -150) ∧
    npvPair [(-100 : ℚ), 50] [(-100 : ℚ), 50] (-1) = (0, 0) := by
  constructor <;> norm_num [npvPair, npvTry, npvTryFrom, pyDiv]

/-- Witness for `npv_rate_behavior` at rate 0 and rate -1. -/
theorem npv_rate_behavior_witness :
    npvPair [(-100 : ℚ), 50] [(-100 : ℚ), 60] 0 =
      (npvQ [(-100 : ℚ), 50] 0, npvQ [(-100 : ℚ), 60] 0) ∧
    npvPair [(-100 : ℚ), 50, 25] [(-100 : ℚ), 60] (-1) = (0, 0) :=
  ⟨npv_rate_behavior.1 _ _ 0 (by norm_num),
   npv_rate_behavior.2 _ _ (by simp)⟩

/-! ## C5: rendering of a zero IRR -/

/-- Claim C5 (code evaluation): because the display code tests the solver
result with Python truthiness (`if irr_avg`), a solver result of exactly
0.0 is rendered "n/a" just like a failed solve, while any non-zero rate is
rendered numerically - the code does not distinguish a zero IRR from an
undefined one. -/
theorem irr_zero_displayed_na :
    irr_display (some 0) = IrrDisplay.na ∧
    irr_display none = IrrDisplay.na ∧
    irr_display (some (1 / 20)) = IrrDisplay.numeric 5 := by
  refine ⟨by norm_num [irr_display], rfl, by norm_num [irr_display]⟩

/-! ## C2: lookup failures -/

/-- Claim C2 (amended): a failed address lookup always falls back to the
default coordinates and never blocks; the financial computation runs
whenever a start yield is available, and a non-positive capacity
short-circuits to a zero yield without consulting the lookup - but (see the
counterexample) a failed yield lookup with positive capacity produces no
result at all. -/
theorem lookup_fallback_behavior :
    (∀ s : String, coordsWithFallback s none = defaultCoords) ∧
    (∀ (p : Params) (pv : Option ℚ) (sy : ℚ), startYield p pv = some sy →
      engine p pv = some (runCase p sy)) ∧
    (∀ (p : Params) (pv : Option ℚ), p.kwp ≤ 0 → engine p pv = some (runCase p 0)) := by
  refine ⟨?_, ?_, ?_⟩
  · intro s
    rw [coordsWithFallback]
    split
    · rfl
    · rfl
  · intro p pv sy h
    rw [engine, h]
  · intro p pv h
    have hs : startYield p pv = some 0 := by
      rw [startYield, if_neg (not_lt.mpr h)]
    rw [engine, hs]

/-- Claim C2 (counterexample): with positive capacity (1 kWp) and a failed
yield lookup (`none`), the whole calculation block is skipped - the engine
produces no result instead of substituting a zero yield and continuing. -/
theorem yield_failure_skips_engine : engine P1 none = none := by
  have hs : startYield P1 none = none := by
    rw [startYield, if_pos]
    norm_num [P1]
  rw [engine, hs]

/-- Witness for `lookup_fallback_behavior`: concrete address fallback, a
successful yield lookup of 1000 kWh, and the zero-capacity short-circuit. -/
theorem lookup_fallback_behavior_witness :
    coordsWithFallback "Hamburg" none = defaultCoords ∧
    engine P1 (some 1000) = some (runCase P1 1000) ∧
    engine P0 none = some (runCase P0 0) :=
  ⟨lookup_fallback_behavior.1 "Hamburg",
   lookup_fallback_behavior.2.1 P1 (some 1000) 1000
     (by rw [startYield, if_pos]; norm_num [P1]),
   lookup_fallback_behavior.2.2 P0 none (by norm_num [P0])⟩

/-! ## C7 / C8: the projected series -/

/-- Entry `k+1` of the average-case series is the year-`(k+1)` net flow. -/
theorem flowsAvg_getElem (p : Params) (sy : ℚ) (k : ℕ) (hk : k < 20) :
    (flowsAvg p sy)[k + 1]? = some (cf_a p sy (k + 1)) := by
  simp [flowsAvg, yearFlowsAvg, List.getElem?_map, List.getElem?_range, hk]

/-- Entry `k+1` of the worst-case series is the year-`(k+1)` net flow. -/
theorem flowsWorst_getElem (p : Params) (sy : ℚ) (k : ℕ) (hk : k < 20) :
    (flowsWorst p sy)[k + 1]? = some (cf_w p sy (k + 1)) := by
  simp [flowsWorst, yearFlowsWorst, List.getElem?_map, List.getElem?_range, hk]

/-- Claim C7: in every year 1..20 the worst-case flow uses the base
avoided-cost price (no escalation), the export price decayed by
`(1 - merit_drop)^(y-1)`, the OPEX escalated by `(1 + inflation)^(y-1)`,
and subtracts the replacement cost exactly when `y` is the replacement
year; the average-case flow uses the same OPEX escalation and no
replacement term. -/
theorem worst_case_year_flows (p : Params) (sy : ℚ) (y : ℕ)
    (h1 : 1 ≤ y) (h2 : y ≤ 20) :
    (flowsWorst p sy)[y]? = some (
      sy * (1 - p.degr_worst) ^ (y - 1) * p.self_use * p.p_industry
      + sy * (1 - p.degr_worst) ^ (y - 1) * (1 - p.self_use)
          * (p.p_market * (1 - p.merit_drop) ^ (y - 1))
      - p.opex_fix * (1 + p.infl_avg) ^ (y - 1)
      - (if y = p.inv_year then p.inv_cost else 0)) ∧
    (flowsAvg p sy)[y]? = some (
      sy * (1 - p.degr_avg) ^ (y - 1) * p.self_use
          * (p.p_industry * (1 + p.infl_avg) ^ (y - 1))
      + sy * (1 - p.degr_avg) ^ (y - 1) * (1 - p.self_use)
          * (p.p_market * (1 + p.infl_avg) ^ (y - 1))
      - p.opex_fix * (1 + p.infl_avg) ^ (y - 1)) := by
  obtain ⟨k, rfl⟩ : ∃ k, y = k + 1 := ⟨y - 1, by omega⟩
  have hk : k < 20 := by omega
  constructor
  · rw [flowsWorst_getElem p sy k hk]
    simp [cf_w, rev_w, cost_w, invest_fix, prod_w, p_mark_w]
  · rw [flowsAvg_getElem p sy k hk]
    simp [cf_a, rev_a, cost_a, prod_a, p_ind_a, p_mark_a]

/-- Witness for `worst_case_year_flows` at the replacement year 10 of the
parameter set `P1` with a 1000 kWh base yield. -/
theorem worst_case_year_flows_witness :
    (flowsWorst P1 1000)[10]? = some (
      1000 * (1 - P1.degr_worst) ^ (10 - 1) * P1.self_use * P1.p_industry
      + 1000 * (1 - P1.degr_worst) ^ (10 - 1) * (1 - P1.self_use)
          * (P1.p_market * (1 - P1.merit_drop) ^ (10 - 1))
      - P1.opex_fix * (1 + P1.infl_avg) ^ (10 - 1)
      - (if 10 = P1.inv_year then P1.inv_cost else 0)) ∧
    (flowsAvg P1 1000)[10]? = some (
      1000 * (1 - P1.degr_avg) ^ (10 - 1) * P1.self_use
          * (P1.p_industry * (1 + P1.infl_avg) ^ (10 - 1))
      + 1000 * (1 - P1.degr_avg) ^ (10 - 1) * (1 - P1.self_use)
          * (P1.p_market * (1 + P1.infl_avg) ^ (10 - 1))
      - P1.opex_fix * (1 + P1.infl_avg) ^ (10 - 1)) :=
  worst_case_year_flows P1 1000 10 (by norm_num) (by norm_num)

/-- Claim C8 (amended): with a zero base yield the average-case projection
is total and produces the full 21-entry series, the outlay `-CAPEX` at
index 0, zero revenue in every year, and a net flow of minus the
inflation-escalated OPEX, `-(OPEX * (1+inflation)^(y-1))`, in each year
1..20 (not the constant `-OPEX` of the claim). -/
theorem base_yield_zero_series (p : Params) (y : ℕ) (h1 : 1 ≤ y) (h2 : y ≤ 20) :
    (flowsAvg p 0).length = 21 ∧
    (flowsAvg p 0)[0]? = some (-p.capex) ∧
    rev_a p 0 y = 0 ∧
    (flowsAvg p 0)[y]? = some (-(p.opex_fix * (1 + p.infl_avg) ^ (y - 1))) := by
  refine ⟨?_, rfl, ?_, ?_⟩
  · simp [flowsAvg, yearFlowsAvg]
  · simp [rev_a, prod_a]
  · obtain ⟨k, rfl⟩ : ∃ k, y = k + 1 := ⟨y - 1, by omega⟩
    rw [flowsAvg_getElem p 0 k (by omega)]
    norm_num [cf_a, rev_a, cost_a, prod_a]

/-- Claim C8 (counterexample): with 100% inflation and a base OPEX of 100,
the year-2 net flow at zero yield is -200, not the claimed `-OPEX` = -100. -/
theorem base_yield_zero_counterexample :
    (flowsAvg Pinfl 0)[2]? = some ((-200 : ℚ)) ∧
    Pinfl.opex_fix = 100 ∧ ((-200 : ℚ)) ≠ -Pinfl.opex_fix := by
  refine ⟨?_, rfl, by norm_num [Pinfl]⟩
  have h := flowsAvg_getElem Pinfl 0 1 (by norm_num)
  norm_num [cf_a, rev_a, cost_a, prod_a, p_ind_a, p_mark_a, Pinfl] at h
  exact h

/-- Witness for `base_yield_zero_series` at year 3 of `P1`. -/
theorem base_yield_zero_series_witness :
    (flowsAvg P1 0).length = 21 ∧
    (flowsAvg P1 0)[0]? = some (-P1.capex) ∧
    rev_a P1 0 3 = 0 ∧
    (flowsAvg P1 0)[3]? = some (-(P1.opex_fix * (1 + P1.infl_avg) ^ (3 - 1))) :=
  base_yield_zero_series P1 3 (by norm_num) (by norm_num)

/-! ## C10: the number parser -/

/-- Claim C10: `parse_de_number` is total - every int and float input comes
back as that number, every string input yields the `float` conversion of
the comma-to-dot-rewritten string (`none` exactly when that conversion
fails, the caught `ValueError`), and any other input yields `none`. -/
theorem parse_de_number_total_spec :
    (∀ n : ℤ, parse_de_number (PyVal.pyInt n) = some ((n : ℚ))) ∧
    (∀ q : ℚ, parse_de_number (PyVal.pyFloat q) = some q) ∧
    (∀ s : String, parse_de_number (PyVal.pyStr s) = floatOfString (s.replace "," ".")) ∧
    parse_de_number PyVal.pyOther = none :=
  ⟨fun _ => rfl, fun _ => rfl, fun _ => rfl, rfl⟩
